import Mathlib

/-!
Shallow embedding of the tiered conversational memory engine
(`Assignment 6/memory_logic.py` and `Assignment 6/api_endpoints.py`).

The three MongoDB collections (`messages`, `summaries`, `episodes`) are
modelled as append-only lists inside a `Store`; `datetime.utcnow()` is
modelled by a logical clock `now` that increases by one at every insert,
so `created_at` stamps are strictly increasing in insertion order.
External collaborators are parameters: the Ollama generation call is a
function `gen : String → GenOutcome` (success text or failure), and the
embedding call is a function `embed : String → List ℚ` (covering both
the real embedding and the random fallback vector, which the claims do
not distinguish).  Floating-point numbers carried by the data (importance
scores, embedding entries, similarity scores) are modelled as exact
rationals; the real-valued cosine similarity is modelled over `ℝ`.
-/

namespace MemoryEngine

/-- One chat turn as stored in the `messages` collection
(`save_message` in `memory_logic.py`). -/
structure Message where
  user_id : String
  session_id : String
  role : String
  content : String
  created_at : Nat
deriving DecidableEq

/-- One summarization artifact as stored in the `summaries` collection
(inserted by `generate_session_summary` and `update_lifetime_summary`). -/
structure Digest where
  user_id : String
  session_id : Option String
  scope : String
  text : String
  created_at : Nat
deriving DecidableEq

/-- One extracted fact as stored in the `episodes` collection
(inserted by `extract_episodes`). -/
structure Episode where
  user_id : String
  session_id : String
  fact : String
  importance : ℚ
  embedding : List ℚ
  created_at : Nat
deriving DecidableEq

/-- An episode annotated with the similarity score that
`get_relevant_episodes` attaches before sorting (the mutation
`episode['similarity'] = ...` in the source). -/
structure ScoredEpisode where
  episode : Episode
  similarity : ℚ
deriving DecidableEq

/-- The three collections plus the logical clock standing for
`datetime.utcnow()`. -/
structure Store where
  messages : List Message
  summaries : List Digest
  episodes : List Episode
  now : Nat
deriving DecidableEq

/-- Outcome of one call to the Ollama generation endpoint: the `.ok`
case is a success response body, `.failure` covers network/timeout
errors and non-2xx responses (`requests` exceptions and
`raise_for_status`). -/
inductive GenOutcome where
  | ok (text : String)
  | failure (err : String)
deriving DecidableEq

/-- Constant `SHORT_TERM_N = 16` from `memory_logic.py`. -/
def SHORT_TERM_N : Nat := 16

/-- Constant `SUMMARIZE_EVERY_USER_MSGS = 5` from `memory_logic.py`. -/
def SUMMARIZE_EVERY_USER_MSGS : Nat := 5

/-- Constant `TOP_K_EPISODES = 5` from `memory_logic.py`. -/
def TOP_K_EPISODES : Nat := 5

/-- The canned string `get_ollama_response` returns from its `except`
branch when the generation call fails. -/
def fallbackReply : String :=
  "I\x27m sorry, I\x27m having trouble processing your request right now."

/-- `get_ollama_response` (`memory_logic.py:28-43`): returns the response
text on success and swallows every exception, returning the fixed
apology string instead; it never raises. -/
def get_ollama_response (gen : String → GenOutcome) (prompt : String) : String :=
  match gen prompt with
  | .ok t => t
  | .failure _ => fallbackReply

/-- Dot product of two vectors, zipping to the shorter length (as
`numpy` would on equal-length vectors; we only use it on equal lengths
or to express norms). -/
def dot (a b : List ℚ) : ℚ :=
  (List.zipWith (· * ·) a b).sum

/-- `cosine_similarity_score` (`memory_logic.py:61-67`): sklearn cosine
similarity wrapped in `try/except`.  A dimension mismatch raises inside
sklearn and is caught, giving `0.0`; sklearn clamps zero norms to `1`
before dividing, so a zero-norm vector also yields `0.0`; otherwise the
value is `dot a b / (‖a‖ * ‖b‖)` with `‖v‖ = √(dot v v)`.  Floats are
modelled as exact reals. -/
noncomputable def cosine_similarity_score (a b : List ℚ) : ℝ :=
  if a.length = b.length ∧ dot a a ≠ 0 ∧ dot b b ≠ 0 then
    (dot a b : ℝ) / (Real.sqrt (dot a a) * Real.sqrt (dot b b))
  else 0

/-- `save_message` (`memory_logic.py:69-76`): one `insert_one` into the
`messages` collection, stamped with the current time. -/
def save_message (st : Store) (user_id session_id role content : String) : Store :=
  { st with
    messages := st.messages ++
      [{ user_id := user_id, session_id := session_id, role := role,
         content := content, created_at := st.now }],
    now := st.now + 1 }

/-- The Mongo filter `{"user_id": u, "session_id": s}` on `messages`. -/
def partitionMessages (user_id session_id : String) (msgs : List Message) : List Message :=
  msgs.filter (fun m => m.user_id == user_id && m.session_id == session_id)

/-- The Mongo `.sort("created_at", -1)` on messages: newest first.
Modelled as a stable descending sort. -/
def sortMessagesByNewest (msgs : List Message) : List Message :=
  List.insertionSort (fun a b => b.created_at ≤ a.created_at) msgs

/-- `get_short_term_messages` (`memory_logic.py:78-83`): query the
partition newest-first, take `limit`, then reverse back to
chronological order. -/
def get_short_term_messages (user_id session_id : String) (limit : Nat) (st : Store) :
    List Message :=
  ((sortMessagesByNewest (partitionMessages user_id session_id st.messages)).take limit).reverse

/-- The Mongo `.sort("created_at", -1)` on summaries: newest first. -/
def sortDigestsByNewest (ds : List Digest) : List Digest :=
  List.insertionSort (fun a b => b.created_at ≤ a.created_at) ds

/-- `get_long_term_summaries` (`memory_logic.py:85-99`): the latest
`session`-scope digest for the session and the latest `user`-scope
digest for the user, projected to their text (as the pair
`(session, lifetime)`). -/
def get_long_term_summaries (user_id session_id : String) (st : Store) :
    Option String × Option String :=
  let session_summary :=
    (sortDigestsByNewest (st.summaries.filter
      (fun d => d.user_id == user_id && d.session_id == some session_id &&
        d.scope == "session"))).head?
  let lifetime_summary :=
    (sortDigestsByNewest (st.summaries.filter
      (fun d => d.user_id == user_id && d.scope == "user"))).head?
  (session_summary.map Digest.text, lifetime_summary.map Digest.text)

/-- The Mongo `count_documents` with filter
`{"user_id": u, "session_id": s, "role": "user"}`. -/
def countUserMessages (user_id session_id : String) (st : Store) : Nat :=
  (st.messages.filter (fun m =>
    m.user_id == user_id && m.session_id == session_id && m.role == "user")).length

/-- `should_summarize` (`memory_logic.py:101-107`). -/
def should_summarize (user_id session_id : String) (st : Store) : Bool :=
  countUserMessages user_id session_id st % SUMMARIZE_EVERY_USER_MSGS == 0

/-- `generate_session_summary` (`memory_logic.py:109-139`): pull the 20
newest turns of the partition; if none, return `""` with no write;
otherwise render them oldest-first as `role: content` lines, call the
generation collaborator, and insert a `session`-scope digest. -/
def generate_session_summary (gen : String → GenOutcome) (user_id session_id : String)
    (st : Store) : String × Store :=
  let recent_messages :=
    (sortMessagesByNewest (partitionMessages user_id session_id st.messages)).take 20
  if recent_messages = [] then ("", st)
  else
    let conversation := String.intercalate "\n"
      (recent_messages.reverse.map (fun m => m.role ++ ": " ++ m.content))
    let prompt := "Summarize the following conversation into key points:\n\n" ++
      conversation ++ "\n\nProvide a concise summary with 3-5 bullet points:"
    let summary := get_ollama_response gen prompt
    (summary,
      { st with
        summaries := st.summaries ++
          [{ user_id := user_id, session_id := some session_id, scope := "session",
             text := summary, created_at := st.now }],
        now := st.now + 1 })

/-- `update_lifetime_summary` (`memory_logic.py:141-168`): pull the 5
newest `session`-scope digests of the user; if none, return `""` with no
write; otherwise concatenate their texts, call the generation
collaborator, and insert a digest with `scope = "user"` and
`session_id = None`. -/
def update_lifetime_summary (gen : String → GenOutcome) (user_id : String)
    (st : Store) : String × Store :=
  let session_summaries :=
    (sortDigestsByNewest (st.summaries.filter
      (fun d => d.user_id == user_id && d.scope == "session"))).take 5
  if session_summaries = [] then ("", st)
  else
    let combined_summaries := String.intercalate "\n\n" (session_summaries.map Digest.text)
    let prompt := "Create a lifetime user profile summary from these session summaries:\n\n" ++
      combined_summaries ++
      "\n\nProvide a concise user profile with key characteristics and preferences:"
    let lifetime_summary := get_ollama_response gen prompt
    (lifetime_summary,
      { st with
        summaries := st.summaries ++
          [{ user_id := user_id, session_id := none, scope := "user",
             text := lifetime_summary, created_at := st.now }],
        now := st.now + 1 })

/-- Python's `message.split('.')` on the character list of the message:
every occurrence of `'.'` ends a segment, empty segments included. -/
def splitOnDot : List Char → List (List Char)
  | [] => [[]]
  | c :: t =>
    let r := splitOnDot t
    if c = '.' then [] :: r
    else (c :: r.headD []) :: r.tail

/-- Python's `sentence.strip()`: drop whitespace from both ends. -/
def trimChars (s : List Char) : List Char :=
  ((s.dropWhile Char.isWhitespace).reverse.dropWhile Char.isWhitespace).reverse

/-- Python's `sentence.lower()` (character-wise lowercasing). -/
def toLowerChars (s : List Char) : List Char :=
  s.map Char.toLower

/-- Substring test on character lists: `hasSub w s` is true iff `w`
occurs contiguously inside `s` (the semantics of Python's
`w in s`). -/
def hasSub (w : List Char) : List Char → Bool
  | [] => w.isEmpty
  | c :: t => w.isPrefixOf (c :: t) || hasSub w t

/-- Python's `word in sentence.lower()` as used by the importance
scorer. -/
def sentenceContains (sentence word : String) : Bool :=
  hasSub word.data (toLowerChars sentence.data)

/-- Rule-1 trigger keywords of `extract_episodes`. -/
def importanceKeywords1 : List String :=
  ["important", "remember", "always", "never", "love", "hate"]

/-- Rule-2 trigger keywords of `extract_episodes`. -/
def importanceKeywords2 : List String :=
  ["like", "prefer", "want", "need"]

/-- The literal `0.8` in reduced form.  (The decimal-literal
`OfScientific` coercion of `ℚ` is `@[irreducible]`, which blocks kernel
evaluation of concrete runs, so the four score constants of
`extract_episodes` are written as reduced fractions;
`score_literal_values` proves they are the source's decimals.) -/
def q08 : ℚ := ⟨4, 5, by decide, by decide⟩

/-- The literal `0.6` in reduced form. -/
def q06 : ℚ := ⟨3, 5, by decide, by decide⟩

/-- The literal `0.5` in reduced form. -/
def q05 : ℚ := ⟨1, 2, by decide, by decide⟩

/-- The literal `0.4` in reduced form (the persistence threshold). -/
def q04 : ℚ := ⟨2, 5, by decide, by decide⟩

/-- The importance bucketing inside `extract_episodes`
(`memory_logic.py:178-182`): start at `0.5`, bump to `0.8` if any
rule-1 keyword occurs as a substring of the lowercased sentence, else
to `0.6` if any rule-2 keyword does. -/
def importance (sentence : String) : ℚ :=
  if importanceKeywords1.any (fun w => sentenceContains sentence w) then q08
  else if importanceKeywords2.any (fun w => sentenceContains sentence w) then q06
  else q05

/-- The body of the `for sentence in sentences` loop of
`extract_episodes`: trim, gate on trimmed length strictly inside
`(10, 200)`, score, gate on `importance > 0.4`, embed, insert, and
collect. -/
def processSentence (embed : String → List ℚ) (user_id session_id : String)
    (acc : List Episode × Store) (raw : List Char) : List Episode × Store :=
  let sentence : String := ⟨trimChars raw⟩
  if 10 < sentence.length ∧ sentence.length < 200 then
    let imp := importance sentence
    if q04 < imp then
      let episode : Episode :=
        { user_id := user_id, session_id := session_id, fact := sentence,
          importance := imp, embedding := embed sentence, created_at := acc.2.now }
      (acc.1 ++ [episode],
        { acc.2 with episodes := acc.2.episodes ++ [episode], now := acc.2.now + 1 })
    else acc
  else acc

/-- `extract_episodes` (`memory_logic.py:171-197`): split the message on
`'.'` and run the per-sentence loop, returning the list of persisted
facts together with the updated store. -/
def extract_episodes (embed : String → List ℚ) (user_id session_id message : String)
    (st : Store) : List Episode × Store :=
  (splitOnDot message.data).foldl (processSentence embed user_id session_id) ([], st)

/-- Python's stable `episodes.sort(key=lambda x: x['similarity'],
reverse=True)`: a stable descending sort on the attached score. -/
def sortScoredBySimilarity (l : List ScoredEpisode) : List ScoredEpisode :=
  List.insertionSort (fun a b => b.similarity ≤ a.similarity) l

/-- `get_relevant_episodes` (`memory_logic.py:199-209`), parameterized
by the similarity scorer `sim` (in the source,
`cosine_similarity_score` on floats; the ranking behaviour holds for
every score assignment, so the scorer is abstracted to exact
rationals): embed the message, scan all of the user's episodes, attach
a score to each, stable-sort descending, and keep the first `top_k`. -/
def get_relevant_episodes (sim : List ℚ → List ℚ → ℚ) (embed : String → List ℚ)
    (user_id message : String) (top_k : Nat) (st : Store) : List ScoredEpisode :=
  let message_embedding := embed message
  let episodes := st.episodes.filter (fun e => e.user_id == user_id)
  let scored := episodes.map (fun e =>
    ScoredEpisode.mk e (sim message_embedding e.embedding))
  (sortScoredBySimilarity scored).take top_k

/-- The system primer literal of the `/api/chat` handler. -/
def systemPrimer : String :=
  "You are a helpful AI assistant with memory. Use the provided context and facts to give personalized responses."

/-- `build_prompt` (`memory_logic.py:211-234`). -/
def build_prompt (system_primer : String) (long_term : Option String × Option String)
    (short_term_messages : List Message) (current_message : String)
    (episodic_facts : List ScoredEpisode) : String :=
  let parts1 := [system_primer]
  let parts2 := match long_term.2 with
    | some t => parts1 ++ ["User Profile: " ++ t]
    | none => parts1
  let parts3 := match long_term.1 with
    | some t => parts2 ++ ["Session Context: " ++ t]
    | none => parts2
  let parts4 :=
    if short_term_messages = [] then parts3
    else parts3 ++ ["Recent conversation:\n" ++ String.intercalate "\n"
      (short_term_messages.map (fun m => m.role ++ ": " ++ m.content))]
  let parts5 := parts4 ++ ["User: " ++ current_message]
  let parts6 :=
    if episodic_facts = [] then parts5
    else parts5 ++ ["Relevant facts:\n" ++ String.intercalate "\n"
      (episodic_facts.map (fun f => "- " ++ f.episode.fact))]
  String.intercalate "\n\n" parts6

/-- Result of one `/api/chat` turn: the reply returned to the caller
and the store after all writes. -/
structure ChatResult where
  reply : String
  st : Store
deriving DecidableEq

/-- The `/api/chat` handler body (`api_endpoints.py:70-108`): record the
user turn, fetch the short-term window and summaries, extract episodes,
rank relevant episodes, build the prompt, generate the reply (with
internal fallback on failure), record the assistant turn, then run the
two nested summarization gates. -/
def chat (gen : String → GenOutcome) (embed : String → List ℚ)
    (sim : List ℚ → List ℚ → ℚ) (user_id session_id message : String)
    (st : Store) : ChatResult :=
  let st1 := save_message st user_id session_id "user" message
  let short_term_messages := get_short_term_messages user_id session_id SHORT_TERM_N st1
  let long_term_summaries := get_long_term_summaries user_id session_id st1
  let st2 := (extract_episodes embed user_id session_id message st1).2
  let relevant_episodes := get_relevant_episodes sim embed user_id message TOP_K_EPISODES st2
  let prompt := build_prompt systemPrimer long_term_summaries short_term_messages
    message relevant_episodes
  let reply := get_ollama_response gen prompt
  let st3 := save_message st2 user_id session_id "assistant" reply
  let st4 :=
    if should_summarize user_id session_id st3 then
      let st5 := (generate_session_summary gen user_id session_id st3).2
      if short_term_messages.length % 5 == 0 then
        (update_lifetime_summary gen user_id st5).2
      else st5
    else st3
  { reply := reply, st := st4 }

/-- The `/api/chat` endpoint with its `try/except` wrapper
(`api_endpoints.py:70-112`).  In the model every step of the body is
total — collaborator failures are already absorbed inside
`get_ollama_response`/`get_embedding` — so the `except` branch (HTTP
500) is unreachable and the endpoint always answers with a normal
`ChatResponse`. -/
def chat_endpoint (gen : String → GenOutcome) (embed : String → List ℚ)
    (sim : List ℚ → List ℚ → ℚ) (user_id session_id message : String)
    (st : Store) : Except Nat ChatResult :=
  Except.ok (chat gen embed sim user_id session_id message st)

/-- Well-formedness of a persisted digest as the spec's data model
describes it, with the scope strings the code actually writes:
`"session"` digests carry a session id, `"user"` (lifetime) digests
carry none. -/
def DigestWF (d : Digest) : Prop :=
  (d.scope = "session" ∧ d.session_id ≠ none) ∨
  (d.scope = "user" ∧ d.session_id = none)

instance (d : Digest) : Decidable (DigestWF d) := by
  unfold DigestWF
  infer_instance


/-! ## Concrete collaborators and stores for witnesses and counterexamples -/

/-- A fixed embedding collaborator for concrete runs. -/
def embed0 : String → List ℚ := fun _ => [⟨1, 1, by decide, by decide⟩]

/-- A generation collaborator that always succeeds with the text
`"sum"`. -/
def gen0 : String → GenOutcome := fun _ => .ok "sum"

/-- A generation collaborator that always fails (network timeout). -/
def genFail : String → GenOutcome := fun _ => .failure "timeout"

/-- A constant similarity scorer for concrete runs. -/
def sim0 : List ℚ → List ℚ → ℚ := fun _ _ => ⟨0, 1, by decide, by decide⟩

/-- The empty store. -/
def demoStore0 : Store := { messages := [], summaries := [], episodes := [], now := 0 }

/-- A store holding two full exchanges (user/assistant twice) in the
partition `("u", "s")`. -/
def demoStore4 : Store :=
  { messages :=
      [{ user_id := "u", session_id := "s", role := "user", content := "a", created_at := 0 },
       { user_id := "u", session_id := "s", role := "assistant", content := "b", created_at := 1 },
       { user_id := "u", session_id := "s", role := "user", content := "c", created_at := 2 },
       { user_id := "u", session_id := "s", role := "assistant", content := "d", created_at := 3 }],
    summaries := [], episodes := [], now := 4 }

/-- A store holding one `session`-scope digest for user `"u"`. -/
def demoStoreDigest : Store :=
  { messages := [],
    summaries :=
      [{ user_id := "u", session_id := some "s", scope := "session", text := "t",
         created_at := 0 }],
    episodes := [], now := 1 }

/-- A store holding two full exchanges in the partition `("u", "s")`
and one existing `session`-scope digest for user `"u"` — so a
`summarizeLifetime` call on it has material to draw from and is not a
no-op. -/
def demoStore4Digest : Store :=
  { messages :=
      [{ user_id := "u", session_id := "s", role := "user", content := "a", created_at := 0 },
       { user_id := "u", session_id := "s", role := "assistant", content := "b", created_at := 1 },
       { user_id := "u", session_id := "s", role := "user", content := "c", created_at := 2 },
       { user_id := "u", session_id := "s", role := "assistant", content := "d", created_at := 3 }],
    summaries :=
      [{ user_id := "u", session_id := some "s", scope := "session", text := "t",
         created_at := 4 }],
    episodes := [], now := 5 }

/-! ## Helper lemmas -/

/-- The four score constants are exactly the decimal literals appearing
in `extract_episodes`. -/
theorem score_literal_values : q08 = 0.8 ∧ q06 = 0.6 ∧ q05 = 0.5 ∧ q04 = 0.4 := by
  refine ⟨?_, ?_, ?_, ?_⟩ <;>
    norm_num [q08, q06, q05, q04, Rat.mk'_eq_divInt, Rat.divInt_eq_div]

/-- Inserting an element related to nothing in the list lands at the
end. -/
theorem orderedInsert_eq_append {α : Type} (r : α → α → Prop) [DecidableRel r] (a : α) :
    ∀ l : List α, (∀ b ∈ l, ¬ r a b) → List.orderedInsert r a l = l ++ [a]
  | [], _ => rfl
  | b :: t, h => by
    rw [List.orderedInsert, if_neg (h b (by simp)),
      orderedInsert_eq_append r a t (fun x hx => h x (by simp [hx]))]
    rfl

/-- A stable descending sort of a strictly ascending list is its
reversal. -/
theorem insertionSort_desc_of_ascending {α : Type} (key : α → Nat) :
    ∀ l : List α, (l.Pairwise fun a b => key a < key b) →
      List.insertionSort (fun a b => key b ≤ key a) l = l.reverse
  | [], _ => rfl
  | a :: t, h => by
    have ha := (List.pairwise_cons.mp h).1
    have ht := (List.pairwise_cons.mp h).2
    rw [List.insertionSort, insertionSort_desc_of_ascending key t ht,
      orderedInsert_eq_append]
    · simp
    · intro b hb
      rw [List.mem_reverse] at hb
      have := ha b hb
      omega

/-- Filtering for a class of mutually related elements commutes with
`orderedInsert`: stability of the insertion step. -/
theorem filter_orderedInsert {α : Type} (r : α → α → Prop) [DecidableRel r] (p : α → Bool)
    (a : α) (ha : p a = true → ∀ b, p b = true → r a b) :
    ∀ l : List α, (List.orderedInsert r a l).filter p =
      if p a then a :: l.filter p else l.filter p
  | [] => by
    by_cases hpa : p a <;> simp [List.orderedInsert, hpa]
  | b :: t => by
    by_cases hr : r a b
    · rw [List.orderedInsert, if_pos hr]
      by_cases hpa : p a <;> simp [List.filter_cons, hpa]
    · rw [List.orderedInsert, if_neg hr, List.filter_cons,
        filter_orderedInsert r p a ha t]
      by_cases hpa : p a
      · have hpb : ¬ p b = true := fun hpb => hr (ha hpa b hpb)
        simp [hpa, hpb, List.filter_cons]
      · simp [hpa, List.filter_cons]

/-- Stability of insertion sort, in filtered form: the sort does not
reorder elements of a class on which the relation always holds. -/
theorem filter_insertionSort {α : Type} (r : α → α → Prop) [DecidableRel r] (p : α → Bool)
    (hp : ∀ a b, p a = true → p b = true → r a b) :
    ∀ l : List α, (List.insertionSort r l).filter p = l.filter p
  | [] => rfl
  | a :: t => by
    rw [List.insertionSort, filter_orderedInsert r p a (fun hpa b hpb => hp a b hpa hpb),
      filter_insertionSort r p hp t, List.filter_cons]

/-! ## C3: the short-term window -/

/-- C3: for every store whose message log has strictly increasing
`created_at` stamps (the invariant the logical clock maintains) and
every limit, `get_short_term_messages` returns exactly the last
`min N limit` turns of the `(user_id, session_id)` partition in
ascending `created_at` (chronological) order, where `N` is the
partition's size — the newest-first query result reversed. -/
theorem get_short_term_messages_spec (user_id session_id : String) (limit : Nat) (st : Store)
    (h : st.messages.Pairwise fun a b => a.created_at < b.created_at) :
    get_short_term_messages user_id session_id limit st =
      (partitionMessages user_id session_id st.messages).drop
        ((partitionMessages user_id session_id st.messages).length - limit) ∧
    (get_short_term_messages user_id session_id limit st).length =
      min (partitionMessages user_id session_id st.messages).length limit ∧
    (get_short_term_messages user_id session_id limit st).Pairwise
      (fun a b => a.created_at < b.created_at) := by
  have hpart : (partitionMessages user_id session_id st.messages).Pairwise
      (fun a b => a.created_at < b.created_at) :=
    List.Pairwise.sublist (List.filter_sublist _) h
  have hsort : sortMessagesByNewest (partitionMessages user_id session_id st.messages) =
      (partitionMessages user_id session_id st.messages).reverse :=
    insertionSort_desc_of_ascending Message.created_at _ hpart
  have hmain : get_short_term_messages user_id session_id limit st =
      (partitionMessages user_id session_id st.messages).drop
        ((partitionMessages user_id session_id st.messages).length - limit) := by
    unfold get_short_term_messages
    rw [hsort, List.take_reverse, List.reverse_reverse]
  refine ⟨hmain, ?_, ?_⟩
  · rw [hmain, List.length_drop]
    omega
  · rw [hmain]
    exact List.Pairwise.sublist (List.drop_sublist _ _) hpart

/-- Witness for C3 at a concrete input: four appended turns, limit 3:
the result is the last three turns in chronological order. -/
theorem get_short_term_messages_spec_witness :
    get_short_term_messages "u" "s" 3 demoStore4 =
      (partitionMessages "u" "s" demoStore4.messages).drop
        ((partitionMessages "u" "s" demoStore4.messages).length - 3) ∧
    (get_short_term_messages "u" "s" 3 demoStore4).length =
      min (partitionMessages "u" "s" demoStore4.messages).length 3 ∧
    (get_short_term_messages "u" "s" 3 demoStore4).Pairwise
      (fun a b => a.created_at < b.created_at) :=
  get_short_term_messages_spec "u" "s" 3 demoStore4 (by decide)

/-! ## Episodic extraction: the length gate and the importance buckets -/

/-- `hasSub` decides contiguous-substring occurrence. -/
theorem hasSub_eq_true_iff (w : List Char) :
    ∀ s : List Char, hasSub w s = true ↔ w <:+: s
  | [] => by
    simp only [hasSub, List.isEmpty_iff, List.infix_nil]
  | c :: t => by
    simp only [hasSub, Bool.or_eq_true, List.infix_cons_iff,
      hasSub_eq_true_iff w t, List.isPrefixOf_iff_prefix]

/-- One step of the extraction loop preserves the per-episode length
bounds of the collected facts. -/
theorem foldl_processSentence_bounds (embed : String → List ℚ)
    (user_id session_id : String) :
    ∀ (raws : List (List Char)) (acc : List Episode × Store),
      (∀ e ∈ acc.1, 10 < e.fact.length ∧ e.fact.length < 200) →
      ∀ e ∈ (raws.foldl (processSentence embed user_id session_id) acc).1,
        10 < e.fact.length ∧ e.fact.length < 200
  | [], _, hacc => hacc
  | raw :: rest, acc, hacc => by
    rw [List.foldl_cons]
    apply foldl_processSentence_bounds embed user_id session_id rest
    intro e he
    by_cases h1 : 10 < (⟨trimChars raw⟩ : String).length ∧
        (⟨trimChars raw⟩ : String).length < 200
    · by_cases h2 : q04 < importance ⟨trimChars raw⟩
      · simp only [processSentence, if_pos h1, if_pos h2, List.mem_append,
          List.mem_singleton] at he
        rcases he with h | h
        · exact hacc e h
        · subst h
          exact h1
      · simp only [processSentence, if_pos h1, if_neg h2] at he
        exact hacc e he
    · simp only [processSentence, if_neg h1] at he
      exact hacc e he

/-- The extraction loop appends exactly the collected facts to the
`episodes` collection. -/
theorem foldl_processSentence_episodes (embed : String → List ℚ)
    (user_id session_id : String) :
    ∀ (raws : List (List Char)) (acc : List Episode × Store) (E0 : List Episode),
      acc.2.episodes = E0 ++ acc.1 →
      (raws.foldl (processSentence embed user_id session_id) acc).2.episodes =
        E0 ++ (raws.foldl (processSentence embed user_id session_id) acc).1
  | [], _, _, h => h
  | raw :: rest, acc, E0, h => by
    rw [List.foldl_cons]
    apply foldl_processSentence_episodes embed user_id session_id rest _ E0
    by_cases h1 : 10 < (⟨trimChars raw⟩ : String).length ∧
        (⟨trimChars raw⟩ : String).length < 200
    · by_cases h2 : q04 < importance ⟨trimChars raw⟩
      · simp only [processSentence, if_pos h1, if_pos h2]
        rw [h, List.append_assoc]
      · simpa only [processSentence, if_pos h1, if_neg h2] using h
    · simpa only [processSentence, if_neg h1] using h

/-- C4: `extract_episodes` persists exactly the facts it returns, and
every persisted fact is a trimmed sentence whose character length lies
strictly inside `(10, 200)`: candidates outside the gate are discarded
before scoring. -/
theorem extract_episodes_length_gate (embed : String → List ℚ)
    (user_id session_id message : String) (st : Store) :
    (extract_episodes embed user_id session_id message st).2.episodes =
      st.episodes ++ (extract_episodes embed user_id session_id message st).1 ∧
    ∀ e ∈ (extract_episodes embed user_id session_id message st).1,
      10 < e.fact.length ∧ e.fact.length < 200 := by
  constructor
  · exact foldl_processSentence_episodes embed user_id session_id
      (splitOnDot message.data) ([], st) st.episodes (by simp)
  · exact foldl_processSentence_bounds embed user_id session_id
      (splitOnDot message.data) ([], st) (by simp)

/-- Witness for C4 at a concrete input: the first sentence of
`"I love spicy food. I visited Tokyo last year."` is persisted and its
trimmed length lies strictly inside `(10, 200)`. -/
theorem extract_episodes_length_gate_witness :
    10 < ("I love spicy food" : String).length ∧
    ("I love spicy food" : String).length < 200 :=
  (extract_episodes_length_gate embed0 "u" "s"
      "I love spicy food. I visited Tokyo last year." demoStore0).2
    { user_id := "u", session_id := "s", fact := "I love spicy food",
      importance := q08, embedding := embed0 "I love spicy food", created_at := 0 }
    (by decide)

/-- C5: importance scoring is a deterministic first-match-wins keyword
bucket rule — rule 1 (`0.8`), else rule 2 (`0.6`), else `0.5` — and on
the three reference sentences it gives `0.8`, `0.6`, `0.5`. -/
theorem importance_precedence :
    (∀ sentence : String,
        importanceKeywords1.any (fun w => sentenceContains sentence w) = true →
          importance sentence = 0.8) ∧
    (∀ sentence : String,
        importanceKeywords1.any (fun w => sentenceContains sentence w) = false →
        importanceKeywords2.any (fun w => sentenceContains sentence w) = true →
          importance sentence = 0.6) ∧
    (∀ sentence : String,
        importanceKeywords1.any (fun w => sentenceContains sentence w) = false →
        importanceKeywords2.any (fun w => sentenceContains sentence w) = false →
          importance sentence = 0.5) ∧
    importance "I always remember trips" = 0.8 ∧
    importance "I like coffee" = 0.6 ∧
    importance "It is sunny" = 0.5 := by
  obtain ⟨h8, h6, h5, -⟩ := score_literal_values
  refine ⟨?_, ?_, ?_, ?_, ?_, ?_⟩
  · intro s h
    rw [importance, if_pos h, h8]
  · intro s h1 h2
    rw [importance, if_neg (by simp [h1]), if_pos h2, h6]
  · intro s h1 h2
    rw [importance, if_neg (by simp [h1]), if_neg (by simp [h2]), h5]
  · rw [← h8]; decide
  · rw [← h6]; decide
  · rw [← h5]; decide

/-- Witness for C5: a concrete rule-1 sentence scores `0.8` through the
precedence rule. -/
theorem importance_precedence_witness :
    importanceKeywords1.any (fun w => sentenceContains "I never skip breakfast" w) = true ∧
    importance "I never skip breakfast" = 0.8 :=
  ⟨by decide, importance_precedence.1 "I never skip breakfast" (by decide)⟩

/-- C10: keyword detection is substring containment on the lowercased
sentence, not word-boundary matching: any sentence containing
`"nevertheless"` fires rule 1 (it contains `"never"`) and scores `0.8`;
any sentence containing `"unlikely"` (and no rule-1 keyword) fires
rule 2 (it contains `"like"`) and scores `0.6`; concretely,
`"That outcome is unlikely for us"` scores `0.6` and
`"Nevertheless we went home today"` scores `0.8`. -/
theorem importance_substring_matching :
    (∀ sentence word : String, sentenceContains sentence word =
        hasSub word.data (toLowerChars sentence.data)) ∧
    (∀ sentence : String, sentenceContains sentence "nevertheless" = true →
        importance sentence = 0.8) ∧
    (∀ sentence : String,
        importanceKeywords1.any (fun w => sentenceContains sentence w) = false →
        sentenceContains sentence "unlikely" = true →
        importance sentence = 0.6) ∧
    importance "That outcome is unlikely for us" = 0.6 ∧
    importance "Nevertheless we went home today" = 0.8 := by
  obtain ⟨h8, h6, -, -⟩ := score_literal_values
  have key : ∀ (s : String) (w v : List Char), hasSub w v = true →
      hasSub v (toLowerChars s.data) = true → hasSub w (toLowerChars s.data) = true := by
    intro s w v hwv hvs
    rw [hasSub_eq_true_iff] at hwv hvs ⊢
    exact hwv.trans hvs
  refine ⟨fun _ _ => rfl, ?_, ?_, ?_, ?_⟩
  · intro s h
    have hnever : sentenceContains s "never" = true :=
      key s "never".data "nevertheless".data (by decide) h
    have hany : importanceKeywords1.any (fun w => sentenceContains s w) = true :=
      List.any_eq_true.mpr ⟨"never", by decide, hnever⟩
    rw [importance, if_pos hany, h8]
  · intro s h1 h2
    have hlike : sentenceContains s "like" = true :=
      key s "like".data "unlikely".data (by decide) h2
    have hany : importanceKeywords2.any (fun w => sentenceContains s w) = true :=
      List.any_eq_true.mpr ⟨"like", by decide, hlike⟩
    rw [importance, if_neg (by simp [h1]), if_pos hany, h6]
  · rw [← h6]; decide
  · rw [← h8]; decide

/-- Witness for C10: a concrete sentence containing `"nevertheless"`
scores `0.8` through the substring rule. -/
theorem importance_substring_matching_witness :
    importance "nevertheless it rained a lot" = 0.8 :=
  importance_substring_matching.2.1 "nevertheless it rained a lot" (by decide)

/-! ## C6: relevance ranking -/

/-- C6: for every scorer, user, query and `top_k`, the ranking returns
exactly `min n top_k` episodes (with `n` the user's stored episode
count), in descending similarity order, and entries of equal similarity
form a prefix of the input-order scan restricted to that similarity
(stable tie-break). -/
theorem get_relevant_episodes_spec (sim : List ℚ → List ℚ → ℚ) (embed : String → List ℚ)
    (user_id message : String) (top_k : Nat) (st : Store) :
    (get_relevant_episodes sim embed user_id message top_k st).length =
      min (st.episodes.filter (fun e => e.user_id == user_id)).length top_k ∧
    (get_relevant_episodes sim embed user_id message top_k st).Pairwise
      (fun a b => b.similarity ≤ a.similarity) ∧
    ∀ c : ℚ, ∃ k : Nat,
      (get_relevant_episodes sim embed user_id message top_k st).filter
          (fun x => x.similarity == c) =
        (((st.episodes.filter (fun e => e.user_id == user_id)).map (fun e =>
            ScoredEpisode.mk e (sim (embed message) e.embedding))).filter
          (fun x => x.similarity == c)).take k := by
  haveI instTot : IsTotal ScoredEpisode (fun a b => b.similarity ≤ a.similarity) :=
    ⟨fun a b => le_total b.similarity a.similarity⟩
  haveI instTrans : IsTrans ScoredEpisode (fun a b => b.similarity ≤ a.similarity) :=
    ⟨fun _ _ _ hab hbc => le_trans hbc hab⟩
  refine ⟨?_, ?_, ?_⟩
  · simp only [get_relevant_episodes, sortScoredBySimilarity, List.length_take,
      List.length_insertionSort, List.length_map]
    exact Nat.min_comm _ _
  · simp only [get_relevant_episodes, sortScoredBySimilarity]
    have hsorted : List.Pairwise (fun a b : ScoredEpisode => b.similarity ≤ a.similarity)
        (List.insertionSort (fun a b : ScoredEpisode => b.similarity ≤ a.similarity)
          ((st.episodes.filter (fun e => e.user_id == user_id)).map (fun e =>
            ScoredEpisode.mk e (sim (embed message) e.embedding)))) :=
      List.sorted_insertionSort (fun a b : ScoredEpisode => b.similarity ≤ a.similarity) _
    exact List.Pairwise.sublist (List.take_sublist _ _) hsorted
  · intro c
    have hp : ∀ a b : ScoredEpisode, (a.similarity == c) = true →
        (b.similarity == c) = true → b.similarity ≤ a.similarity := by
      intro a b ha hb
      rw [beq_iff_eq] at ha hb
      rw [ha, hb]
    refine ⟨((get_relevant_episodes sim embed user_id message top_k st).filter
      (fun x : ScoredEpisode => x.similarity == c)).length, ?_⟩
    have hstable := filter_insertionSort (fun a b : ScoredEpisode =>
        b.similarity ≤ a.similarity) (fun x : ScoredEpisode => x.similarity == c) hp
      ((st.episodes.filter (fun e => e.user_id == user_id)).map (fun e =>
        ScoredEpisode.mk e (sim (embed message) e.embedding)))
    rw [← hstable]
    exact List.prefix_iff_eq_take.mp
      (( List.take_prefix top_k _).filter (fun x : ScoredEpisode => x.similarity == c))

/-! ## C7: cosine similarity -/

/-- The dot product of a vector with itself is nonnegative. -/
theorem dot_self_nonneg (a : List ℚ) : 0 ≤ dot a a := by
  rw [dot, List.zipWith_same]
  apply List.sum_nonneg
  intro x hx
  rw [List.mem_map] at hx
  obtain ⟨y, -, rfl⟩ := hx
  exact mul_self_nonneg y

/-- The dot product of an all-zero vector with itself is zero. -/
theorem dot_self_eq_zero_of_zero {a : List ℚ} (h : ∀ x ∈ a, x = 0) : dot a a = 0 := by
  rw [dot, List.zipWith_same]
  apply List.sum_eq_zero
  intro x hx
  rw [List.mem_map] at hx
  obtain ⟨y, hy, rfl⟩ := hx
  rw [h y hy, mul_zero]

/-- A vector with a nonzero entry has positive self dot product. -/
theorem dot_self_pos_of_mem {a : List ℚ} {x : ℚ} (hx : x ∈ a) (hx0 : x ≠ 0) :
    0 < dot a a := by
  have hle : x * x ≤ dot a a := by
    rw [dot, List.zipWith_same]
    exact List.single_le_sum
      (fun y hy => by
        rw [List.mem_map] at hy
        obtain ⟨z, -, rfl⟩ := hy
        exact mul_self_nonneg z)
      (x * x) (List.mem_map_of_mem (fun y => y * y) hx)
  exact lt_of_lt_of_le (mul_self_pos.mpr hx0) hle

/-- C7: `cosine_similarity_score` is total (it never raises) and
returns the fallback `0.0` when the dimensions mismatch or either
vector is all zeros (zero norm); on the non-degenerate case it returns
`dot a b / (‖a‖·‖b‖)`, and the similarity of a vector with a nonzero
entry with itself is exactly `1`. -/
theorem cosine_similarity_score_spec :
    (∀ a b : List ℚ,
        (a.length ≠ b.length ∨ (∀ x ∈ a, x = 0) ∨ (∀ x ∈ b, x = 0)) →
        cosine_similarity_score a b = 0) ∧
    (∀ a b : List ℚ, a.length = b.length → dot a a ≠ 0 → dot b b ≠ 0 →
        cosine_similarity_score a b =
          (dot a b : ℝ) / (Real.sqrt (dot a a) * Real.sqrt (dot b b))) ∧
    (∀ (a : List ℚ) (x : ℚ), x ∈ a → x ≠ 0 → cosine_similarity_score a a = 1) := by
  refine ⟨?_, ?_, ?_⟩
  · intro a b h
    rw [cosine_similarity_score, if_neg]
    rintro ⟨hlen, ha, hb⟩
    rcases h with h | h | h
    · exact h hlen
    · exact ha (dot_self_eq_zero_of_zero h)
    · exact hb (dot_self_eq_zero_of_zero h)
  · intro a b h1 h2 h3
    rw [cosine_similarity_score, if_pos ⟨h1, h2, h3⟩]
  · intro a x hx hx0
    have hpos := dot_self_pos_of_mem hx hx0
    have hne : dot a a ≠ 0 := ne_of_gt hpos
    rw [cosine_similarity_score, if_pos ⟨rfl, hne, hne⟩,
      Real.mul_self_sqrt (by exact_mod_cast dot_self_nonneg a)]
    exact div_self (by exact_mod_cast hne)

/-- Witness for C7: the self-similarity of the nonzero vector `[1, 2]`
is exactly `1`. -/
theorem cosine_similarity_score_spec_witness :
    cosine_similarity_score [1, 2] [1, 2] = 1 :=
  cosine_similarity_score_spec.2.2 [1, 2] 1 (by norm_num) one_ne_zero

/-! ## C8: summarizing an empty window -/

/-- C8: `generate_session_summary` on a session whose ledger partition
is empty returns the empty string and leaves the store untouched (no
digest write), for every generation collaborator — no generation call
can influence the result. -/
theorem generate_session_summary_empty_noop (gen : String → GenOutcome)
    (user_id session_id : String) (st : Store)
    (h : partitionMessages user_id session_id st.messages = []) :
    generate_session_summary gen user_id session_id st = ("", st) := by
  unfold generate_session_summary
  rw [h]
  simp [sortMessagesByNewest]

/-- Witness for C8: on the empty store the summarizer is a no-op. -/
theorem generate_session_summary_empty_noop_witness :
    generate_session_summary gen0 "u" "s" demoStore0 = ("", demoStore0) :=
  generate_session_summary_empty_noop gen0 "u" "s" demoStore0 (by decide)

/-! ## C9: digest scopes -/

/-- Counterexample for C9 as stated: after `update_lifetime_summary`
runs on a store holding one session digest, the persisted lifetime
digest has scope `"user"`, not `"lifetime"`, so not every digest has
scope `"session"` or `"lifetime"`. -/
theorem digest_scope_counterexample :
    ¬ ∀ d ∈ (update_lifetime_summary gen0 "u" demoStoreDigest).2.summaries,
        d.scope = "session" ∨ d.scope = "lifetime" := by decide

/-- C9 (amended): every digest either writer persists has scope
`"session"` or `"user"` (the code's literal for lifetime scope); a
`"user"`-scope digest carries `session_id = None` and a
`"session"`-scope digest always carries a session id — an invariant
preserved by both summarization writes. -/
theorem digest_scope_invariant (gen : String → GenOutcome) (user_id session_id : String)
    (st : Store) (h : ∀ d ∈ st.summaries, DigestWF d) :
    (∀ d ∈ (generate_session_summary gen user_id session_id st).2.summaries, DigestWF d) ∧
    (∀ d ∈ (update_lifetime_summary gen user_id st).2.summaries, DigestWF d) := by
  constructor
  · simp only [generate_session_summary]
    split
    · exact h
    · intro d hd
      rcases List.mem_append.mp hd with hold | hnew
      · exact h d hold
      · rw [List.mem_singleton] at hnew
        subst hnew
        exact Or.inl ⟨rfl, by simp⟩
  · simp only [update_lifetime_summary]
    split
    · exact h
    · intro d hd
      rcases List.mem_append.mp hd with hold | hnew
      · exact h d hold
      · rw [List.mem_singleton] at hnew
        subst hnew
        exact Or.inr ⟨rfl, rfl⟩

/-- Witness for C9 (amended) on a concrete well-formed store. -/
theorem digest_scope_invariant_witness :
    (∀ d ∈ (generate_session_summary gen0 "u" "s" demoStoreDigest).2.summaries, DigestWF d) ∧
    (∀ d ∈ (update_lifetime_summary gen0 "u" demoStoreDigest).2.summaries, DigestWF d) :=
  digest_scope_invariant gen0 "u" "s" demoStoreDigest (by decide)

/-! ## Store-preservation lemmas for the chat pipeline -/

/-- One extraction step never touches `messages` or `summaries`. -/
theorem processSentence_msgs_summaries (embed : String → List ℚ)
    (user_id session_id : String) (acc : List Episode × Store) (raw : List Char) :
    (processSentence embed user_id session_id acc raw).2.messages = acc.2.messages ∧
    (processSentence embed user_id session_id acc raw).2.summaries = acc.2.summaries := by
  simp only [processSentence]
  split_ifs <;> exact ⟨rfl, rfl⟩

/-- The extraction loop never touches `messages` or `summaries`. -/
theorem foldl_processSentence_msgs_summaries (embed : String → List ℚ)
    (user_id session_id : String) :
    ∀ (raws : List (List Char)) (acc : List Episode × Store),
      (raws.foldl (processSentence embed user_id session_id) acc).2.messages =
        acc.2.messages ∧
      (raws.foldl (processSentence embed user_id session_id) acc).2.summaries =
        acc.2.summaries
  | [], _ => ⟨rfl, rfl⟩
  | raw :: rest, acc => by
    rw [List.foldl_cons]
    have hrec := foldl_processSentence_msgs_summaries embed user_id session_id rest
      (processSentence embed user_id session_id acc raw)
    have hstep := processSentence_msgs_summaries embed user_id session_id acc raw
    exact ⟨hrec.1.trans hstep.1, hrec.2.trans hstep.2⟩

/-- `extract_episodes` leaves the message ledger unchanged. -/
theorem extract_episodes_messages (embed : String → List ℚ)
    (user_id session_id message : String) (st : Store) :
    (extract_episodes embed user_id session_id message st).2.messages = st.messages :=
  (foldl_processSentence_msgs_summaries embed user_id session_id
    (splitOnDot message.data) ([], st)).1

/-- `extract_episodes` leaves the summaries store unchanged. -/
theorem extract_episodes_summaries (embed : String → List ℚ)
    (user_id session_id message : String) (st : Store) :
    (extract_episodes embed user_id session_id message st).2.summaries = st.summaries :=
  (foldl_processSentence_msgs_summaries embed user_id session_id
    (splitOnDot message.data) ([], st)).2

/-- `generate_session_summary` leaves the message ledger unchanged. -/
theorem generate_session_summary_messages (gen : String → GenOutcome)
    (user_id session_id : String) (st : Store) :
    (generate_session_summary gen user_id session_id st).2.messages = st.messages := by
  simp only [generate_session_summary]
  split <;> rfl

/-- `update_lifetime_summary` leaves the message ledger unchanged. -/
theorem update_lifetime_summary_messages (gen : String → GenOutcome)
    (user_id : String) (st : Store) :
    (update_lifetime_summary gen user_id st).2.messages = st.messages := by
  simp only [update_lifetime_summary]
  split <;> rfl

/-- An insertion sort is empty only on the empty list. -/
theorem insertionSort_eq_nil_iff {α : Type} (r : α → α → Prop) [DecidableRel r]
    (l : List α) : List.insertionSort r l = [] ↔ l = [] := by
  constructor
  · intro h
    have hlen := List.length_insertionSort r l
    rw [h] at hlen
    exact List.length_eq_zero.mp hlen.symm
  · rintro rfl
    rfl

/-- The partition filter distributes over appends. -/
theorem partitionMessages_append (user_id session_id : String) (l₁ l₂ : List Message) :
    partitionMessages user_id session_id (l₁ ++ l₂) =
      partitionMessages user_id session_id l₁ ++ partitionMessages user_id session_id l₂ :=
  List.filter_append _ _

/-- A freshly saved turn lands in its own partition. -/
theorem partitionMessages_singleton_self (user_id session_id role content : String)
    (t : Nat) :
    partitionMessages user_id session_id
      [{ user_id := user_id, session_id := session_id, role := role, content := content,
         created_at := t }] =
      [{ user_id := user_id, session_id := session_id, role := role, content := content,
         created_at := t }] := by
  simp [partitionMessages]

/-- Saving an assistant turn does not change the user-role message
count. -/
theorem countUserMessages_save_assistant (user_id session_id reply : String) (st : Store) :
    countUserMessages user_id session_id
        (save_message st user_id session_id "assistant" reply) =
      countUserMessages user_id session_id st := by
  have hfalse : (("assistant" : String) == "user") = false := by decide
  simp [countUserMessages, save_message, List.filter_append, hfalse]

/-- `countUserMessages` depends only on the message ledger. -/
theorem countUserMessages_congr (user_id session_id : String) {st st' : Store}
    (h : st.messages = st'.messages) :
    countUserMessages user_id session_id st = countUserMessages user_id session_id st' := by
  simp only [countUserMessages, h]

/-- With a nonempty partition, `generate_session_summary` appends
exactly one `"session"`-scope digest. -/
theorem generate_session_summary_summaries_of_ne_nil (gen : String → GenOutcome)
    (user_id session_id : String) (st : Store)
    (h : partitionMessages user_id session_id st.messages ≠ []) :
    (generate_session_summary gen user_id session_id st).2.summaries =
      st.summaries ++
        [{ user_id := user_id, session_id := some session_id, scope := "session",
           text := (generate_session_summary gen user_id session_id st).1,
           created_at := st.now }] := by
  have hne : (sortMessagesByNewest
      (partitionMessages user_id session_id st.messages)).take 20 ≠ [] := by
    rw [Ne, List.take_eq_nil_iff]
    push_neg
    exact ⟨by norm_num,
      fun hsort => h ((insertionSort_eq_nil_iff _ _).mp hsort)⟩
  simp only [generate_session_summary]
  rw [if_neg hne]

/-- With at least one `"session"`-scope digest for the user present,
`update_lifetime_summary` appends exactly one `"user"`-scope digest. -/
theorem update_lifetime_summary_summaries_of_ne_nil (gen : String → GenOutcome)
    (user_id : String) (st : Store)
    (h : st.summaries.filter (fun d => d.user_id == user_id && d.scope == "session") ≠ []) :
    (update_lifetime_summary gen user_id st).2.summaries =
      st.summaries ++
        [{ user_id := user_id, session_id := none, scope := "user",
           text := (update_lifetime_summary gen user_id st).1,
           created_at := st.now }] := by
  have hne : (sortDigestsByNewest (st.summaries.filter
      (fun d => d.user_id == user_id && d.scope == "session"))).take 5 ≠ [] := by
    rw [Ne, List.take_eq_nil_iff]
    push_neg
    exact ⟨by norm_num,
      fun hsort => h ((insertionSort_eq_nil_iff _ _).mp hsort)⟩
  simp only [update_lifetime_summary]
  rw [if_neg hne]

/-- `save_message` only appends to the ledger. -/
theorem save_message_messages (st : Store) (user_id session_id role content : String) :
    (save_message st user_id session_id role content).messages =
      st.messages ++
        [{ user_id := user_id, session_id := session_id, role := role, content := content,
           created_at := st.now }] := rfl

/-- `save_message` does not touch the summaries store. -/
theorem save_message_summaries (st : Store) (user_id session_id role content : String) :
    (save_message st user_id session_id role content).summaries = st.summaries := rfl

/-- Episodic extraction does not change the user-role message count. -/
theorem countUserMessages_extract (embed : String → List ℚ)
    (user_id session_id message u' s' : String) (st : Store) :
    countUserMessages u' s' (extract_episodes embed user_id session_id message st).2 =
      countUserMessages u' s' st :=
  countUserMessages_congr u' s' (extract_episodes_messages embed user_id session_id message st)

/-- After saving a turn into a partition, that partition is nonempty. -/
theorem partition_save_message_ne_nil (user_id session_id role content : String)
    (st : Store) :
    partitionMessages user_id session_id
      (save_message st user_id session_id role content).messages ≠ [] := by
  intro hc
  simp only [save_message, partitionMessages, List.filter_append, List.filter_cons,
    List.filter_nil] at hc
  simp at hc

/-- The summarization tail of the chat handler, in isolation: the
session gate guards everything; inside it, the lifetime gate guards the
lifetime write.  The scope trace of the summaries store records exactly
which writers ran. -/
theorem summarizeTail_scopes (gen : String → GenOutcome) (user_id session_id : String)
    (shortLen : Nat) (st3 : Store)
    (hpart : partitionMessages user_id session_id st3.messages ≠ []) :
    ((if should_summarize user_id session_id st3 then
        (if shortLen % 5 == 0 then
          (update_lifetime_summary gen user_id
            (generate_session_summary gen user_id session_id st3).2).2
        else (generate_session_summary gen user_id session_id st3).2)
      else st3).summaries).map Digest.scope =
    st3.summaries.map Digest.scope ++
      (if countUserMessages user_id session_id st3 % SUMMARIZE_EVERY_USER_MSGS = 0 then
        (if shortLen % 5 = 0 then ["session", "user"] else ["session"])
      else []) := by
  have hgen := generate_session_summary_summaries_of_ne_nil gen user_id session_id st3 hpart
  by_cases hg1 : countUserMessages user_id session_id st3 % SUMMARIZE_EVERY_USER_MSGS = 0
  · have hs : should_summarize user_id session_id st3 = true := by
      simp [should_summarize, hg1]
    rw [if_pos hs, if_pos hg1]
    by_cases hg2 : shortLen % 5 = 0
    · have hb : (shortLen % 5 == 0) = true := by simp [hg2]
      rw [if_pos hb, if_pos hg2]
      have hfilter : ((generate_session_summary gen user_id session_id st3).2.summaries).filter
          (fun d => d.user_id == user_id && d.scope == "session") ≠ [] := by
        rw [hgen, List.filter_append]
        intro hc
        simp at hc
      rw [update_lifetime_summary_summaries_of_ne_nil gen user_id _ hfilter, hgen]
      simp
    · have hb : (shortLen % 5 == 0) = false := by simp [hg2]
      rw [if_neg (by simp [hb]), if_neg hg2, hgen]
      simp
  · have hs : should_summarize user_id session_id st3 = false := by
      simp [should_summarize, hg1]
    rw [if_neg (by simp [hs]), if_neg hg1]
    simp

/-! ## C1: the two summarization gates -/

/-- Counterexample for C1 as stated, on a store that already holds a
`session`-scope digest for the user, so that a `summarizeLifetime` call
is observably not a no-op there.  On the turn, the lifetime-gate
condition holds (the short-term window fetched in the turn has length
`5 ≡ 0 (mod 5)`) while the session gate does not (third user message:
`3 % 5 ≠ 0`).  `update_lifetime_summary` applied to a store with these
summaries appends a `"user"`-scope digest (fourth conjunct; it reads
only the summaries store, which no earlier step of the turn changes) —
yet the turn leaves the summaries store exactly as it was, with no
`"user"`-scope digest: `summarizeLifetime` was not called, so the
lifetime gate firing does require the session gate to have fired. -/
theorem chat_lifetime_gate_counterexample :
    (get_short_term_messages "u" "s" SHORT_TERM_N
        (save_message demoStore4Digest "u" "s" "user" "hi")).length % 5 = 0 ∧
    countUserMessages "u" "s" (save_message demoStore4Digest "u" "s" "user" "hi") %
        SUMMARIZE_EVERY_USER_MSGS ≠ 0 ∧
    (update_lifetime_summary gen0 "u" demoStore4Digest).2.summaries.map Digest.scope =
      ["session", "user"] ∧
    (chat gen0 embed0 sim0 "u" "s" "hi" demoStore4Digest).st.summaries =
      demoStore4Digest.summaries := by
  refine ⟨by decide, by decide, by decide, by decide⟩

/-- C1 (amended): the gates are nested, not independent.  On every
turn, the scope trace of the summaries store grows by `["session"]`
when the per-session user-message count is divisible by
`SUMMARIZE_EVERY_USER_MSGS = 5`, by `["session", "user"]` when
additionally the fetched short-term window length is divisible by 5,
and by nothing otherwise — in particular `summarizeLifetime` runs only
on turns where the session gate fired. -/
theorem chat_summarization_gates_nested (gen : String → GenOutcome)
    (embed : String → List ℚ) (sim : List ℚ → List ℚ → ℚ)
    (user_id session_id message : String) (st : Store) :
    (chat gen embed sim user_id session_id message st).st.summaries.map Digest.scope =
      st.summaries.map Digest.scope ++
        (if countUserMessages user_id session_id
              (save_message st user_id session_id "user" message) %
            SUMMARIZE_EVERY_USER_MSGS = 0 then
          (if (get_short_term_messages user_id session_id SHORT_TERM_N
                (save_message st user_id session_id "user" message)).length % 5 = 0 then
            ["session", "user"]
          else ["session"])
        else []) := by
  simp only [chat]
  rw [summarizeTail_scopes gen user_id session_id _ _
    (partition_save_message_ne_nil user_id session_id "assistant" _ _)]
  rw [save_message_summaries, extract_episodes_summaries, save_message_summaries,
    countUserMessages_save_assistant, countUserMessages_extract]

/-! ## C2: generation failure during the reply step -/

/-- Counterexample for C2 as stated: when the generation collaborator
fails, no error is surfaced to the caller — the endpoint answers
normally (`Except.ok`, an HTTP 200 `ChatResponse`) and the reply is the
canned apology string, not a 5xx-equivalent error. -/
theorem chat_generation_failure_counterexample :
    chat_endpoint genFail embed0 sim0 "u" "s" "Tell me a story" demoStore0 =
      Except.ok (chat genFail embed0 sim0 "u" "s" "Tell me a story" demoStore0) ∧
    (chat genFail embed0 sim0 "u" "s" "Tell me a story" demoStore0).reply =
      fallbackReply := by
  exact ⟨rfl, by decide⟩

/-- C2 (amended): when the generation collaborator fails during the
reply step, the handler does not surface an error: `get_ollama_response`
swallows the failure, the endpoint returns a normal response whose
reply is the fixed apology string, and the previously recorded user
Turn remains persisted in the ledger (no rollback). -/
theorem chat_generation_failure_fallback (gen : String → GenOutcome)
    (embed : String → List ℚ) (sim : List ℚ → List ℚ → ℚ)
    (user_id session_id message : String) (st : Store) (err : String)
    (h : ∀ p, gen p = .failure err) :
    chat_endpoint gen embed sim user_id session_id message st =
      Except.ok (chat gen embed sim user_id session_id message st) ∧
    (chat gen embed sim user_id session_id message st).reply = fallbackReply ∧
    { user_id := user_id, session_id := session_id, role := "user", content := message,
      created_at := st.now } ∈
      (chat gen embed sim user_id session_id message st).st.messages := by
  refine ⟨rfl, ?_, ?_⟩
  · simp only [chat, get_ollama_response, h]
  · simp only [chat]
    split
    · split
      · rw [update_lifetime_summary_messages, generate_session_summary_messages,
          save_message_messages, extract_episodes_messages, save_message_messages]
        simp
      · rw [generate_session_summary_messages, save_message_messages,
          extract_episodes_messages, save_message_messages]
        simp
    · rw [save_message_messages, extract_episodes_messages, save_message_messages]
      simp

/-- Witness for C2 (amended) at a concrete failing collaborator. -/
theorem chat_generation_failure_fallback_witness :
    chat_endpoint genFail embed0 sim0 "u" "s" "Hello there" demoStore0 =
      Except.ok (chat genFail embed0 sim0 "u" "s" "Hello there" demoStore0) ∧
    (chat genFail embed0 sim0 "u" "s" "Hello there" demoStore0).reply = fallbackReply ∧
    { user_id := "u", session_id := "s", role := "user", content := "Hello there",
      created_at := 0 } ∈
      (chat genFail embed0 sim0 "u" "s" "Hello there" demoStore0).st.messages :=
  chat_generation_failure_fallback genFail embed0 sim0 "u" "s" "Hello there" demoStore0
    "timeout" (fun _ => rfl)

end MemoryEngine
